import Mathlib

/-!
Shallow embedding of the credential-lifecycle core of the django-blog
repository, translated from:
  src/accounts/services.py   (AuthService, TokenService)
  src/accounts/views.py      (LoginView, LogoutView)
  src/accounts/backends.py   (EmailBackend)
  src/myblog/settings/base.py (cookie names, TTLs)
Machine integers do not overflow here (ids, seconds), so Nat/Int are used
directly.  Fallible Python paths are embedded as Option or PyResult; an
uncaught Python exception is an explicit error value of type PyError.
-/

namespace DjangoBlog

/-! Settings constants from src/myblog/settings/base.py. -/

def AUTH_COOKIE_ACCESS_TOKEN : String := "access_token"

def AUTH_COOKIE_REFRESH_TOKEN : String := "refresh_token"

/-- 60 * 30 seconds (30 minutes), settings/base.py line 48. -/
def AUTH_COOKIE_ACCESS_MAX_AGE : Nat := 60 * 30

/-- 60 * 60 * 24 * 14 seconds (14 days), settings/base.py line 49. -/
def AUTH_COOKIE_REFRESH_MAX_AGE : Nat := 60 * 60 * 24 * 14

/-- Django auth user row as consumed by accounts/services.py and
accounts/backends.py.  `password` stands for the stored password hash;
`check_password` compares a raw password against it. -/
structure User where
  id : Int
  email : String
  password : String
  username : String
  is_active : Bool
deriving Repr, DecidableEq

/-- Django User.check_password: pure comparison of the raw password against
the stored hash (hashing is modelled as the identity). -/
def check_password (u : User) (raw : String) : Bool :=
  u.password == raw

/-! JWT layer (PyJWT jwt.encode / jwt.decode as used by TokenService). -/

/-- JWT claim set as built by TokenService.generate_access_token /
generate_refresh_token (services.py lines 240-247 and 263-269).
`user_id` and `email` are Option to model Python dict.get on payloads
that may lack the key; timestamps are seconds since the epoch. -/
structure Payload where
  user_id : Option Int
  email : Option String
  exp : Nat
  iat : Nat
  type : String
  jti : Nat
deriving Repr, DecidableEq

/-- An encoded token string: either a well-formed JWT signed with some key,
or a string that does not parse as a JWT at all.  `malformed s` also covers
the empty string (s = ""). -/
inductive TokenStr where
  | signed (p : Payload) (key : Nat)
  | malformed (s : String)
deriving Repr, DecidableEq

inductive JwtError where
  | expiredSignature
  | invalidToken
deriving Repr, DecidableEq

/-- PyJWT jwt.decode(token, key, algorithms): parsing and signature are
checked first, then exp; with zero leeway PyJWT treats exp <= now as
expired.  No claim is exposed unless the signature verified. -/
def jwtDecode (t : TokenStr) (key : Nat) (now : Nat) : Except JwtError Payload :=
  match t with
  | .malformed _ => .error .invalidToken
  | .signed p k =>
    if k ≠ key then .error .invalidToken
    else if p.exp ≤ now then .error .expiredSignature
    else .ok p

/-- Python truthiness of a cookie value (`if not raw_token`): the cookie is
falsy when absent or when its value is the empty string. -/
def tokenFalsy (t : TokenStr) : Bool :=
  match t with
  | .malformed s => s == ""
  | .signed _ _ => false

/-- jti of a well-formed token, for stating revocation claims. -/
def jtiOf (t : TokenStr) : Option Nat :=
  match t with
  | .signed p _ => some p.jti
  | .malformed _ => none

/-! TokenService (services.py lines 221-315). -/

/-- TokenService.__init__ stores settings.SECRET_KEY; the HS256 algorithm
constant is implicit in jwtDecode. -/
structure TokenService where
  secret_key : Nat
deriving Repr, DecidableEq

def accessTokenType : String := "access"

def refreshTokenType : String := "refresh"

/-- TokenService.generate_access_token (services.py lines 228-249): payload
{user_id, email, exp = now + AUTH_COOKIE_ACCESS_MAX_AGE, iat = now,
type = access, jti = random}, signed with the service key.  The random jti
and the clock are explicit parameters. -/
def TokenService.generate_access_token (ts : TokenService) (u : User) (now jti : Nat) : TokenStr :=
  .signed
    { user_id := some u.id
      email := some u.email
      exp := now + AUTH_COOKIE_ACCESS_MAX_AGE
      iat := now
      type := accessTokenType
      jti := jti } ts.secret_key

/-- TokenService.generate_refresh_token (services.py lines 251-271): same
shape with type = refresh, exp = now + AUTH_COOKIE_REFRESH_MAX_AGE, and no
email claim. -/
def TokenService.generate_refresh_token (ts : TokenService) (u : User) (now jti : Nat) : TokenStr :=
  .signed
    { user_id := some u.id
      email := none
      exp := now + AUTH_COOKIE_REFRESH_MAX_AGE
      iat := now
      type := refreshTokenType
      jti := jti } ts.secret_key

/-- TokenService.verify_access_token (services.py lines 273-293): decode;
on ExpiredSignatureError / InvalidTokenError return None; if
payload.get(type) is not access return None; else return
payload.get(user_id). -/
def TokenService.verify_access_token (ts : TokenService) (t : TokenStr) (now : Nat) : Option Int :=
  match jwtDecode t ts.secret_key now with
  | .error _ => none
  | .ok p => if p.type ≠ accessTokenType then none else p.user_id

/-- TokenService.verify_refresh_token (services.py lines 295-315): decode;
on ExpiredSignatureError / InvalidTokenError return None; if
payload.get(type) is not refresh return None; else return
payload.get(user_id).  Notably it consults no revocation store. -/
def TokenService.verify_refresh_token (ts : TokenService) (t : TokenStr) (now : Nat) : Option Int :=
  match jwtDecode t ts.secret_key now with
  | .error _ => none
  | .ok p => if p.type ≠ refreshTokenType then none else p.user_id

/-! ORM lookups (Django QuerySet.get semantics). -/

abbrev Db := List User

/-- Result of Django Model.objects.get: DoesNotExist when no row matches,
MultipleObjectsReturned when several do, the row otherwise. -/
inductive GetResult (α : Type) where
  | notFound
  | multiple
  | found (a : α)
deriving Repr, DecidableEq

/-- User.objects.get(email=email): exact (case-sensitive) match on the
email column. -/
def objectsGetByEmail (db : Db) (email : String) : GetResult User :=
  match db.filter (fun u => u.email == email) with
  | [u] => .found u
  | [] => .notFound
  | _ => .multiple

/-- User.objects.get(id=user_id): exact match on the primary key. -/
def objectsGetById (db : Db) (uid : Int) : GetResult User :=
  match db.filter (fun u => u.id == uid) with
  | [u] => .found u
  | [] => .notFound
  | _ => .multiple

/-- An uncaught Python exception escaping the layer under study. -/
inductive PyError where
  | valueErrorUnpack
  | typeErrorNotSubscriptable
  | multipleObjectsReturned
deriving Repr, DecidableEq

/-- Result of running a Python code path: its value, or an uncaught
exception. -/
inductive PyResult (α : Type) where
  | ok (a : α)
  | raised (e : PyError)
deriving Repr, DecidableEq

/-! AuthService (services.py lines 29-166).  The service methods are pure
functions of the user table, the secret key, the clock and the freshly drawn
jtis; none of them writes any persistent state. -/

/-- AuthService.login (services.py lines 32-60): User.objects.get(email=email)
(only DoesNotExist is caught; MultipleObjectsReturned escapes), then
check_password, then generate both tokens.  Success is the 3-tuple
(user, access_token, refresh_token); failure is None. -/
def AuthService.login (db : Db) (key : Nat) (email password : String) (now j1 j2 : Nat) :
    PyResult (Option (User × TokenStr × TokenStr)) :=
  match objectsGetByEmail db email with
  | .notFound => .ok none
  | .multiple => .raised .multipleObjectsReturned
  | .found user =>
    if ¬ check_password user password then .ok none
    else
      let ts : TokenService := { secret_key := key }
      .ok (some (user, ts.generate_access_token user now j1,
                  ts.generate_refresh_token user now j2))

/-- AuthService.logout (services.py lines 62-75): the body is a stub that
returns True for every input; it performs no lookup and no write. -/
def AuthService.logout (_refresh_token : TokenStr) : Bool :=
  true

/-- AuthService.refresh_tokens (services.py lines 77-105): verify the
refresh token; on None propagate None; else look the user up by id (only
DoesNotExist caught) and mint a brand-new pair.  Nothing is revoked. -/
def AuthService.refresh_tokens (db : Db) (key : Nat) (t : TokenStr) (now j1 j2 : Nat) :
    PyResult (Option (TokenStr × TokenStr)) :=
  let ts : TokenService := { secret_key := key }
  match ts.verify_refresh_token t now with
  | none => .ok none
  | some uid =>
    match objectsGetById db uid with
    | .notFound => .ok none
    | .multiple => .raised .multipleObjectsReturned
    | .found user =>
      .ok (some (ts.generate_access_token user now j1,
                  ts.generate_refresh_token user now j2))

/-- AuthService.authenticate_request (services.py lines 107-153): read the
access cookie; a missing or falsy cookie gives None; a failed
verify_access_token gives None (the code also treats a falsy user_id, i.e.
None or 0, as failure); an unknown user gives None; the final catch-all
except swallows every other exception into None. -/
def AuthService.authenticate_request (db : Db) (key : Nat) (cookie : Option TokenStr) (now : Nat) :
    Option User :=
  match cookie with
  | none => none
  | some raw_token =>
    if tokenFalsy raw_token then none
    else
      let ts : TokenService := { secret_key := key }
      match ts.verify_access_token raw_token now with
      | none => none
      | some user_id =>
        if user_id == 0 then none
        else
          match objectsGetById db user_id with
          | .found user => some user
          | .notFound => none
          | .multiple => none

/-! Explicit system state.  The only durable store the deployment has for
token revocation is the rest_framework_simplejwt.token_blacklist table
configured in settings/base.py; the accounts services never read or write
it, which the state-passing wrappers below make explicit. -/

/-- Persistent state visible to the auth subsystem: the user table and the
set of blacklisted refresh-token jtis (the installed token_blacklist
table). -/
structure SysState where
  db : Db
  revoked : List Nat
deriving Repr, DecidableEq

/-- State-passing form of AuthService.logout: the body is `return True`,
so the state is returned untouched. -/
def AuthService.logoutS (s : SysState) (t : TokenStr) : SysState × Bool :=
  (s, AuthService.logout t)

/-- State-passing form of AuthService.refresh_tokens: the method performs
no ORM write, so the state is returned untouched. -/
def AuthService.refresh_tokensS (s : SysState) (key : Nat) (t : TokenStr) (now j1 j2 : Nat) :
    SysState × PyResult (Option (TokenStr × TokenStr)) :=
  (s, AuthService.refresh_tokens s.db key t now j1 j2)

/-- State-passing form of TokenService.verify_refresh_token: the method
reads neither the user table nor the revocation table (services.py lines
295-315 consult only the JWT itself). -/
def verify_refresh_tokenS (s : SysState) (key : Nat) (t : TokenStr) (now : Nat) : Option Int :=
  let _ := s
  TokenService.verify_refresh_token { secret_key := key } t now

/-! HTTP layer (views.py).  Python values crossing the service/view
boundary are modelled dynamically so that the tuple-shape mismatch between
services.py and views.py is visible. -/

/-- A Python value as it crosses the AuthService/LoginView boundary. -/
inductive Py where
  | user (u : User)
  | tok (t : TokenStr)
deriving Repr, DecidableEq

/-- The Python tuple `(user, access_token, refresh_token)` returned by
AuthService.login (services.py line 57). -/
def loginTuple (u : User) (a r : TokenStr) : List Py :=
  [.user u, .tok a, .tok r]

/-- Python tuple unpacking into two targets, views.py line 119
(`user, tokens = result`): anything but a 2-element sequence raises
ValueError. -/
def unpack2 (xs : List Py) : PyResult (Py × Py) :=
  match xs with
  | [a, b] => .ok (a, b)
  | _ => .raised .valueErrorUnpack

/-- Python subscripting `tokens[k]` (views.py lines 135 and 146): neither a
User object nor a token string is subscriptable, so this raises TypeError. -/
def pySubscript (_v : Py) (_k : String) : PyResult TokenStr :=
  .raised .typeErrorNotSubscriptable

/-- One Set-Cookie emitted by response.set_cookie in views.py. -/
structure SetCookie where
  name : String
  value : TokenStr
  max_age : Nat
  httponly : Bool
  samesite : String
deriving Repr, DecidableEq

/-- Outcome of a view: an HTTP response (status, body message, cookies
set), or an exception escaping the view (Django turns that into a 500). -/
inductive ViewOutcome where
  | resp (status : Nat) (body : String) (cookies : List SetCookie)
  | raised (e : PyError)
deriving Repr, DecidableEq

/-- Python truthiness of request.data.get: absent or empty string is
falsy. -/
def strTruthy (s : Option String) : Bool :=
  match s with
  | none => false
  | some v => v ≠ ""

def samesiteLax : String := "Lax"

def msgFieldsRequired : String := "Email and password are required"

def msgAuthFailed : String := "Authentication failed"

def msgLoginOk : String := "Login successful"

/-- LoginView.post (views.py lines 92-155): falsy email/password give 400;
AuthService.login returning None gives 401; on a success the view executes
`user, tokens = result` on the service 3-tuple and then would subscript
`tokens` with access/refresh, setting both auth cookies with the configured
Max-Age values. -/
def LoginViewPost (db : Db) (key : Nat) (email password : Option String) (now j1 j2 : Nat) :
    ViewOutcome :=
  if ¬ (strTruthy email ∧ strTruthy password) then
    .resp 400 msgFieldsRequired []
  else
    match email, password with
    | some e, some p =>
      match AuthService.login db key e p now j1 j2 with
      | .raised err => .raised err
      | .ok none => .resp 401 msgAuthFailed []
      | .ok (some (u, a, r)) =>
        match unpack2 (loginTuple u a r) with
        | .raised err => .raised err
        | .ok (_userPy, tokensPy) =>
          match pySubscript tokensPy AUTH_COOKIE_ACCESS_TOKEN with
          | .raised err => .raised err
          | .ok av =>
            match pySubscript tokensPy AUTH_COOKIE_REFRESH_TOKEN with
            | .raised err => .raised err
            | .ok rv =>
              .resp 200 msgLoginOk
                [{ name := AUTH_COOKIE_ACCESS_TOKEN, value := av,
                   max_age := AUTH_COOKIE_ACCESS_MAX_AGE,
                   httponly := true, samesite := samesiteLax },
                 { name := AUTH_COOKIE_REFRESH_TOKEN, value := rv,
                   max_age := AUTH_COOKIE_REFRESH_MAX_AGE,
                   httponly := true, samesite := samesiteLax }]
    | _, _ => .resp 400 msgFieldsRequired []

/-- Response of LogoutView.post (views.py lines 167-198): status, success
body, and both auth cookies deleted. -/
structure LogoutResponse where
  status : Nat
  success : Bool
  deletesAccessCookie : Bool
  deletesRefreshCookie : Bool
deriving Repr, DecidableEq

/-- LogoutView.post (views.py lines 167-198): if the refresh cookie is
truthy, AuthService.logout is called and its result discarded; the response
is always the success payload with both cookies cleared. -/
def LogoutViewPost (refreshCookie : Option TokenStr) : LogoutResponse :=
  let _ok : Bool :=
    match refreshCookie with
    | none => true
    | some t => if tokenFalsy t then true else AuthService.logout t
  { status := 200, success := true,
    deletesAccessCookie := true, deletesRefreshCookie := true }

/-! EmailBackend (backends.py lines 6-24): the registered authentication
backend that does a case-insensitive email lookup.  AuthService.login does
not call it. -/

/-- ASCII lowercasing of one character, as Python str.lower acts on the
ASCII range used by the fixtures (codepoints 65-90 map to 97-122). -/
def pyLowerChar (c : Char) : Char :=
  if 65 ≤ c.toNat ∧ c.toNat ≤ 90 then Char.ofNat (c.toNat + 32) else c

/-- Python str.lower. -/
def pyLower (s : String) : String :=
  ⟨s.data.map pyLowerChar⟩

/-- Whitespace in the sense of Python str.strip (space, tab, LF, CR). -/
def pySpace (c : Char) : Bool :=
  c.toNat == 32 || c.toNat == 9 || c.toNat == 10 || c.toNat == 13

/-- Python str.strip: remove leading and trailing whitespace. -/
def pyStrip (s : String) : String :=
  ⟨((s.data.dropWhile pySpace).reverse.dropWhile pySpace).reverse⟩

/-- EmailBackend.authenticate: falsy email or password gives None; the
input is stripped and lowercased, the lookup is email__iexact
(case-insensitive, modelled as equality after lowercasing); DoesNotExist
and MultipleObjectsReturned give None; a wrong password gives None. -/
def EmailBackend.authenticate (db : Db) (email password : Option String) : Option User :=
  match email, password with
  | some e, some p =>
    if e = "" ∨ p = "" then none
    else
      let cleaned_email := pyLower (pyStrip e)
      match db.filter (fun u => pyLower u.email == cleaned_email) with
      | [u] => if check_password u p then some u else none
      | _ => none
  | _, _ => none

/-! Concrete fixtures used by the counterexample and witness theorems. -/

def pwFixture : String := "testpass123"

def emailLowerFixture : String := "test@example.com"

def emailUpperFixture : String := "TEST@EXAMPLE.COM"

def emailInactiveFixture : String := "inactive@example.com"

/-- Active stored user, id 1. -/
def alice : User :=
  { id := 1, email := emailLowerFixture, password := pwFixture,
    username := "alice", is_active := true }

/-- Inactive stored user, id 2. -/
def ivan : User :=
  { id := 2, email := emailInactiveFixture, password := pwFixture,
    username := "ivan", is_active := false }

def db0 : Db := [alice]

def db5 : Db := [alice, ivan]

def ts0 : TokenService := { secret_key := 0 }

/-- A refresh token freshly issued to alice at time 100 with jti 5. -/
def R0 : TokenStr := ts0.generate_refresh_token alice 100 5

/-- An access token freshly issued to alice at time 100 with jti 6. -/
def A0 : TokenStr := ts0.generate_access_token alice 100 6

/-- System state whose blacklist table contains jti 5 (the jti of R0). -/
def s2 : SysState := { db := db0, revoked := [5] }

def wrongPwFixture : String := "wrongpass"

def ghostEmailFixture : String := "ghost@example.com"

/-- An already-expired refresh payload: exp = 5, verified at now = 10. -/
def pExpired : Payload :=
  { user_id := some 1, email := none, exp := 5, iat := 0,
    type := refreshTokenType, jti := 9 }

/-- Helper: a user returned by objectsGetById is a row of the table. -/
lemma mem_of_objectsGetById {db : Db} {uid : Int} {u : User}
    (h : objectsGetById db uid = .found u) : u ∈ db := by
  unfold objectsGetById at h
  rcases hf : db.filter (fun v => v.id == uid) with _ | ⟨a, _ | ⟨b, tl⟩⟩ <;>
      rw [hf] at h
  · exact absurd h (by simp)
  · have ha : a ∈ db.filter (fun v => v.id == uid) := by
      rw [hf]; exact List.mem_singleton_self a
    have hmem := (List.mem_filter.mp ha).1
    have : a = u := by simpa using h
    exact this ▸ hmem
  · exact absurd h (by simp)

/-- Helper: an authenticated user comes from the user table. -/
lemma user_of_authenticate_request {db : Db} {key now : Nat}
    {cookie : Option TokenStr} {u : User}
    (h : AuthService.authenticate_request db key cookie now = some u) : u ∈ db := by
  unfold AuthService.authenticate_request at h
  cases cookie with
  | none => exact absurd h (by simp)
  | some t =>
    by_cases hf : tokenFalsy t
    · simp [hf] at h
    · simp only [hf, if_false, Bool.false_eq_true] at h
      cases hv : TokenService.verify_access_token { secret_key := key } t now with
      | none => rw [hv] at h; exact absurd h (by simp)
      | some uid =>
        rw [hv] at h
        by_cases h0 : uid == 0
        · simp [h0] at h
        · simp only [h0, if_false, Bool.false_eq_true] at h
          cases hg : objectsGetById db uid with
          | notFound => rw [hg] at h; exact absurd h (by simp)
          | multiple => rw [hg] at h; exact absurd h (by simp)
          | found v =>
            rw [hg] at h
            have : v = u := by simpa using h
            exact mem_of_objectsGetById (this ▸ hg)

/-- C1 (counter-evidence, code bug): rotation is not single-use in
AuthService.refresh_tokens.  R0 is a refresh token freshly issued to alice
at time 100; rotating it at time 200 succeeds and returns a new pair, yet
rotating the very same original string again at time 300 succeeds again,
and verify_refresh_token still accepts R0 after both rotations.  The code
records nothing in any revocation store. -/
theorem c1_refresh_tokens_not_single_use :
    AuthService.refresh_tokens db0 0 R0 200 6 7 =
      .ok (some (ts0.generate_access_token alice 200 6,
                 ts0.generate_refresh_token alice 200 7)) ∧
    AuthService.refresh_tokens db0 0 R0 300 8 9 =
      .ok (some (ts0.generate_access_token alice 300 8,
                 ts0.generate_refresh_token alice 300 9)) ∧
    ts0.verify_refresh_token R0 300 = some 1 := by
  decide

/-- C2 (counter-evidence, code bug): a refresh token whose jti sits in the
revocation table still verifies.  R0 carries jti 5, the state s2 has jti 5
revoked, yet TokenService.verify_refresh_token (which never consults the
store) returns user id 1 instead of failing. -/
theorem c2_revoked_jti_still_verifies :
    jtiOf R0 = some 5 ∧ 5 ∈ s2.revoked ∧
    verify_refresh_tokenS s2 0 R0 200 = some 1 ∧
    verify_refresh_tokenS s2 0 R0 200 ≠ none := by
  refine ⟨by decide, by decide, by decide, by decide⟩

/-- C3 (counter-evidence, code bug): on a valid credential pair LoginView
does not return a success response with both cookies; it raises ValueError,
because views.py line 119 unpacks the service result into two names while
AuthService.login returns a 3-tuple. -/
theorem c3_login_view_raises_on_valid_credentials :
    objectsGetByEmail db0 emailLowerFixture = .found alice ∧
    check_password alice pwFixture = true ∧
    LoginViewPost db0 0 (some emailLowerFixture) (some pwFixture) 100 1 2 =
      .raised .valueErrorUnpack := by
  decide

/-- C4 (confirmed): AuthService.logout mutates nothing — for every state
and every input token it returns the state unchanged together with True,
and consequently a refresh token that verified before logout still
verifies, with the same user id, afterwards. -/
theorem c4_logout_no_state_mutation (s : SysState) (R : TokenStr)
    (key now : Nat) (uid : Int) :
    AuthService.logoutS s R = (s, true) ∧
    (verify_refresh_tokenS s key R now = some uid →
      verify_refresh_tokenS (AuthService.logoutS s R).1 key R now = some uid) :=
  ⟨rfl, fun h => h⟩

/-- Witness for C4 at a concrete input: R0 verifies in state s2 before and
after logout. -/
theorem c4_witness :
    verify_refresh_tokenS s2 0 R0 200 = some 1 ∧
    verify_refresh_tokenS (AuthService.logoutS s2 R0).1 0 R0 200 = some 1 :=
  ⟨by decide, (c4_logout_no_state_mutation s2 R0 0 200 1).2 (by decide)⟩

/-- C5 (counter-evidence, code bug): AuthService.login neither resolves the
email case-insensitively nor checks is_active.  With alice stored under the
lower-case address and the correct password, login with the upper-case
spelling fails even though the registered EmailBackend would resolve it;
and ivan, who is inactive, logs in successfully and receives a token
pair. -/
theorem c5_login_case_sensitive_and_ignores_is_active :
    AuthService.login db5 0 emailUpperFixture pwFixture 100 1 2 = .ok none ∧
    EmailBackend.authenticate db5 (some emailUpperFixture) (some pwFixture) =
      some alice ∧
    ivan.is_active = false ∧
    check_password ivan pwFixture = true ∧
    AuthService.login db5 0 emailInactiveFixture pwFixture 100 1 2 =
      .ok (some (ivan, ts0.generate_access_token ivan 100 1,
                 ts0.generate_refresh_token ivan 100 2)) := by
  refine ⟨by decide, by decide, by decide, by decide, by decide⟩

/-- C6 (confirmed): enumeration resistance of login.  A wrong password for
an existing email and a nonexistent email both make AuthService.login
return None, and LoginView returns the identical generic 401 response in
both cases. -/
theorem c6_login_enumeration_resistance
    (db : Db) (key : Nat) (e1 p1 e2 p2 : String) (now j1 j2 : Nat) (u : User)
    (h1 : objectsGetByEmail db e1 = .found u)
    (h2 : check_password u p1 = false)
    (h3 : objectsGetByEmail db e2 = .notFound)
    (he1 : e1 ≠ "") (hp1 : p1 ≠ "") (he2 : e2 ≠ "") (hp2 : p2 ≠ "") :
    AuthService.login db key e1 p1 now j1 j2 = .ok none ∧
    AuthService.login db key e2 p2 now j1 j2 = .ok none ∧
    LoginViewPost db key (some e1) (some p1) now j1 j2 =
      .resp 401 msgAuthFailed [] ∧
    LoginViewPost db key (some e2) (some p2) now j1 j2 =
      .resp 401 msgAuthFailed [] := by
  have l1 : AuthService.login db key e1 p1 now j1 j2 = .ok none := by
    unfold AuthService.login
    rw [h1]
    simp [h2]
  have l2 : AuthService.login db key e2 p2 now j1 j2 = .ok none := by
    unfold AuthService.login
    rw [h3]
  refine ⟨l1, l2, ?_, ?_⟩
  · unfold LoginViewPost
    simp [strTruthy, he1, hp1, l1]
  · unfold LoginViewPost
    simp [strTruthy, he2, hp2, l2]

/-- Witness for C6 at concrete inputs: wrong password for alice and a
nonexistent address produce the same generic 401. -/
theorem c6_witness :
    LoginViewPost db5 0 (some emailLowerFixture) (some wrongPwFixture) 100 1 2 =
      .resp 401 msgAuthFailed [] ∧
    LoginViewPost db5 0 (some ghostEmailFixture) (some pwFixture) 100 1 2 =
      .resp 401 msgAuthFailed [] := by
  have h := c6_login_enumeration_resistance db5 0 emailLowerFixture wrongPwFixture
      ghostEmailFixture pwFixture 100 1 2 alice (by decide) (by decide) (by decide)
      (by decide) (by decide) (by decide) (by decide)
  exact ⟨h.2.2.1, h.2.2.2⟩

/-- C7 (confirmed): the credential extractor is total and collapses every
failure mode to None: a missing cookie, a falsy (empty) cookie and a cookie
failing access-token verification all give None, and any non-None result is
a user from the table. -/
theorem c7_authenticate_request_collapses_failures
    (db : Db) (key now : Nat) (cookie : Option TokenStr) :
    (AuthService.authenticate_request db key cookie now = none ∨
      ∃ u, u ∈ db ∧ AuthService.authenticate_request db key cookie now = some u) ∧
    (cookie = none → AuthService.authenticate_request db key cookie now = none) ∧
    (∀ t, cookie = some t → tokenFalsy t = true →
      AuthService.authenticate_request db key cookie now = none) ∧
    (∀ t, cookie = some t →
      TokenService.verify_access_token { secret_key := key } t now = none →
      AuthService.authenticate_request db key cookie now = none) := by
  refine ⟨?_, ?_, ?_, ?_⟩
  · cases hr : AuthService.authenticate_request db key cookie now with
    | none => exact Or.inl rfl
    | some u => exact Or.inr ⟨u, user_of_authenticate_request hr, rfl⟩
  · intro hc
    subst hc
    rfl
  · intro t hc hft
    subst hc
    unfold AuthService.authenticate_request
    simp [hft]
  · intro t hc hv
    subst hc
    unfold AuthService.authenticate_request
    by_cases hf : tokenFalsy t
    · simp [hf]
    · simp [hf, hv]

/-- Witness for C7 at a concrete input: with no cookie the extractor
returns None. -/
theorem c7_witness :
    AuthService.authenticate_request db0 0 none 100 = none :=
  (c7_authenticate_request_collapses_failures db0 0 100 none).2.1 rfl

/-- C8 (confirmed): logout never fails as seen by the caller.
AuthService.logout returns True on every input, repeating it leaves state
and result unchanged, and LogoutView always answers 200 with both auth
cookies cleared, whether or not a refresh cookie was sent. -/
theorem c8_logout_idempotent_always_succeeds
    (s : SysState) (t : TokenStr) (cookie : Option TokenStr) :
    AuthService.logout t = true ∧
    AuthService.logoutS s t = (s, true) ∧
    AuthService.logoutS (AuthService.logoutS s t).1 t = AuthService.logoutS s t ∧
    LogoutViewPost cookie =
      { status := 200, success := true,
        deletesAccessCookie := true, deletesRefreshCookie := true } :=
  ⟨rfl, rfl, rfl, rfl⟩

/-- C9 (confirmed): kind separation.  A string minted by
generate_refresh_token never verifies as an access token, and a string
minted by generate_access_token never verifies as a refresh token,
whatever the subject, issue time, jti and verification time. -/
theorem c9_kind_separation (key : Nat) (u : User) (now0 jti now : Nat) :
    TokenService.verify_access_token { secret_key := key }
      (TokenService.generate_refresh_token { secret_key := key } u now0 jti) now = none ∧
    TokenService.verify_refresh_token { secret_key := key }
      (TokenService.generate_access_token { secret_key := key } u now0 jti) now = none := by
  constructor
  · unfold TokenService.verify_access_token TokenService.generate_refresh_token jwtDecode
    by_cases hexp : now0 + AUTH_COOKIE_REFRESH_MAX_AGE ≤ now <;>
      simp [hexp, refreshTokenType, accessTokenType]
  · unfold TokenService.verify_refresh_token TokenService.generate_access_token jwtDecode
    by_cases hexp : now0 + AUTH_COOKIE_ACCESS_MAX_AGE ≤ now <;>
      simp [hexp, refreshTokenType, accessTokenType]

/-- C10 (confirmed): expiry is enforced unconditionally.  Any payload whose
exp lies strictly in the past fails both access and refresh verification,
even when signed with the correct key and whatever its jti. -/
theorem c10_expiry_enforced (key now : Nat) (p : Payload) (h : p.exp < now) :
    TokenService.verify_access_token { secret_key := key } (.signed p key) now = none ∧
    TokenService.verify_refresh_token { secret_key := key } (.signed p key) now = none := by
  have hle : p.exp ≤ now := le_of_lt h
  constructor
  · unfold TokenService.verify_access_token jwtDecode
    simp [hle]
  · unfold TokenService.verify_refresh_token jwtDecode
    simp [hle]

/-- Witness for C10 at a concrete input: the payload pExpired (exp = 5)
fails both verifications at time 10. -/
theorem c10_witness :
    TokenService.verify_access_token { secret_key := 0 } (.signed pExpired 0) 10 = none ∧
    TokenService.verify_refresh_token { secret_key := 0 } (.signed pExpired 0) 10 = none :=
  c10_expiry_enforced 0 10 pExpired (by decide)

end DjangoBlog
